import Mathlib

/-!
# Verification development for `capra-singleplanner`

Shallow embedding of `src/main.rs` of the `capra-singleplanner` repository:
a single-file front end that decodes a JSON dive-planning request, constructs
breathing gases and bottom segments, instantiates the ZHL16-B decompression
model of the external `capra` library, runs the open-circuit dive planner and
prints the resulting segment table and gas totals.

The repository itself contains only `main.rs`; the value types (`Gas`,
`DiveSegment`), the tissue model (`ZHL16`) and the planning engine
(`OpenCircuit::execute_dive`) live in the external `capra` crate.  Those parts
are modelled here from the specification (their defining documents), each such
definition carrying a doc comment starting with `Modelled from the spec:`.
Everything that is literally in `src/main.rs` (defaults, the derived-nitrogen
expression, the hard-coded planner arguments, the run-time and gas-total folds)
is embedded directly from that source.
-/

namespace CapraSP

/-- Error cases of gas construction (spec §7 taxonomy). -/
inductive GasError
  | InvalidComposition
  | DegenerateGas
deriving DecidableEq

/-- A breathing mixture: oxygen, helium and nitrogen percentages
(spec §3 data model). -/
structure Gas where
  o2 : Nat
  he : Nat
  n2 : Nat
deriving DecidableEq

/-- Modelled from the spec: `Gas::new` lives in the external `capra` crate, not
under `src/`.  Per the spec the constructor validates that the three fractions
are physically consistent — each in `[0,100]` and summing to `100` — and fails
with `InvalidComposition` otherwise (negative percentages are unrepresentable
in `usize`, so the sum check subsumes the range check over `Nat`). -/
def Gas.new (o2 he n2 : Nat) : Except GasError Gas :=
  if o2 + he + n2 = 100 then .ok ⟨o2, he, n2⟩ else .error .InvalidComposition

/-- Rust `usize` modulus (64-bit target). -/
def USIZE : Nat := 2 ^ 64

/-- One Rust `usize` subtraction `a - b` under the release-profile wrapping
semantics: the result is `a - b` reduced modulo `2^64`.  (In a debug build the
same subtraction panics on underflow; in neither profile does a negative
mathematical value get passed on.) -/
def wrappingSub (a b : Nat) : Nat := (a % USIZE + USIZE - b % USIZE) % USIZE

/-- The nitrogen argument that `main` passes to `Gas::new` for a request gas
with oxygen `o2` and helium `he`: the source computes `100 - gas.he - gas.o2`
in `usize` (src/main.rs lines 87 and 107), i.e. two machine subtractions. -/
def n2Passed (o2 he : Nat) : Nat := wrappingSub (wrappingSub 100 he) o2

/-- A decompression gas entry of the JSON request (src/main.rs lines 20–25):
composition percentages and an optional maximum-operating-depth override.
There is no `n2` field — nitrogen is always derived. -/
structure JSONDecoGas where
  o2 : Nat
  he : Nat
  modepth : Option Nat
deriving DecidableEq

/-- A bottom-segment entry of the JSON request (src/main.rs lines 27–33).
There is no `n2` field — nitrogen is always derived. -/
structure JSONDiveSegment where
  depth : Nat
  time : Nat
  o2 : Nat
  he : Nat
deriving DecidableEq

/-- The JSON planning request (src/main.rs lines 35–43).  Note that it has no
surface-air-consumption fields and no coefficient-variant or water-type
fields. -/
structure JSONDive where
  gfl : Option Nat
  gfh : Option Nat
  asc : Option Int
  desc : Option Int
  segments : List JSONDiveSegment
  deco_gases : List JSONDecoGas
deriving DecidableEq

/-- Constant from src/main.rs line 17. -/
def DEFAULT_GFL : Nat := 100

/-- Constant from src/main.rs line 18. -/
def DEFAULT_GFH : Nat := 100

/-- Modelled from the spec: `capra::common::DEFAULT_ASCENT_RATE` is in the
external crate; the spec (§6) gives the default ascent rate as −18 m/min. -/
def DEFAULT_ASCENT_RATE : Int := -18

/-- Modelled from the spec: `capra::common::DEFAULT_DESCENT_RATE` is in the
external crate; the spec (§6) gives the default descent rate as +30 m/min. -/
def DEFAULT_DESCENT_RATE : Int := 30

/-- The closed enumeration of published ZHL16 coefficient-table variants
(spec §9: a tagged choice over fixed named constant tables); `main` imports
only the `ZHL16B_*` tables. -/
inductive ZHL16Variant
  | B
  | C
deriving DecidableEq

/-- The water-density constants exported by `capra::common`; only their
identity matters to `main`, which passes one of them verbatim. -/
inductive WaterDensity
  | saltwater
  | freshwater
deriving DecidableEq

/-- The named constant `capra::common::DENSITY_SALTWATER` as referenced at
src/main.rs line 117. -/
def DENSITY_SALTWATER : WaterDensity := .saltwater

/-- The named constant `capra::common::DENSITY_FRESHWATER` (imported but
unused by `main`). -/
def DENSITY_FRESHWATER : WaterDensity := .freshwater

/-- The arguments with which `main` instantiates the deco algorithm and the
open-circuit planner (src/main.rs lines 66–117): rates and gradient factors
resolved against their defaults, plus the hard-coded coefficient variant,
water density and surface-air-consumption rates. -/
structure PlannerArgs where
  ascent_rate : Int
  descent_rate : Int
  gfl : Nat
  gfh : Nat
  variant : ZHL16Variant
  density : WaterDensity
  sac_bottom : Nat
  sac_deco : Nat
deriving DecidableEq

/-- Embedded from src/main.rs lines 66–117: how `main` computes each argument from the
request `js`.  The `match` expressions mirror lines 66–84; the variant, the
density and the SAC rates are literals at lines 113 and 117 (`20, 15`) and do
not depend on `js`. -/
def mainPlannerArgs (js : JSONDive) : PlannerArgs where
  ascent_rate := match js.asc with
    | some t => t
    | none => DEFAULT_ASCENT_RATE
  descent_rate := match js.desc with
    | some t => t
    | none => DEFAULT_DESCENT_RATE
  gfl := match js.gfl with
    | some t => t
    | none => DEFAULT_GFL
  gfh := match js.gfh with
    | some t => t
    | none => DEFAULT_GFH
  variant := ZHL16Variant.B
  density := DENSITY_SALTWATER
  sac_bottom := 20
  sac_deco := 15

/-- Error case of segment construction (spec §7 taxonomy). -/
inductive SegmentError
  | InvalidSegment
deriving DecidableEq

/-- Segment type tags (spec §3; `capra::common::dive_segment::SegmentType`):
a depth transition, a constant-depth bottom segment, a decompression stop. -/
inductive SegmentType
  | AscDesc
  | DiveSegment
  | DecoStop
deriving DecidableEq

/-- One leg of the dive profile (spec §3): type tag, start and end depth
(metres), duration (seconds), and the ascent/descent rates (m/min, signed)
used to derive transition times. -/
structure DiveSegment where
  segment_type : SegmentType
  start_depth : Nat
  end_depth : Nat
  time : Nat
  ascent_rate : Int
  descent_rate : Int
deriving DecidableEq

/-- Modelled from the spec: `DiveSegment::new` lives in the external `capra`
crate.  Per the spec (§4.4, §7) a requested bottom segment is validated to
have positive depth and positive time, failing with `InvalidSegment`
otherwise; transit and stop segments are generated by the planner from
pre-validated data. -/
def DiveSegment.new (t : SegmentType) (s e : Nat) (tm : Nat) (asc desc : Int) :
    Except SegmentError DiveSegment :=
  if t = SegmentType.DiveSegment ∧ (s = 0 ∨ tm = 0) then .error .InvalidSegment
  else .ok ⟨t, s, e, tm, asc, desc⟩

/-- Overall error type of the modelled `main` pipeline: `.expect` aborts on a
gas or segment decoding failure, and the planner has its own failure modes. -/
inductive PlanError
  | NoBottomSegments
  | UnreachableCeiling
deriving DecidableEq

/-- A failure of the whole pipeline, tagged by the stage that raised it. -/
inductive MainError
  | gas (e : GasError)
  | segment (e : SegmentError)
  | plan (e : PlanError)
deriving DecidableEq

/-- Embedded from src/main.rs lines 86–89: decode the decompression-gas list.  Each entry is
constructed through `Gas::new(o2, he, 100 - he - o2)` and paired with its
optional MOD override; the first failing construction aborts the program
(`.expect`), so decoding is a fail-fast traversal. -/
def decodeDecoGases : List JSONDecoGas → Except GasError (List (Gas × Option Nat))
  | [] => .ok []
  | g :: rest => do
    let gas ← Gas.new g.o2 g.he (n2Passed g.o2 g.he)
    let tail ← decodeDecoGases rest
    pure ((gas, g.modepth) :: tail)

/-- Embedded from src/main.rs lines 103–109: decode the bottom-segment list.  For each entry
a constant-depth `DiveSegment` is constructed first (its `.expect` aborts
before the gas is even built), then the bottom gas through
`Gas::new(o2, he, 100 - he - o2)`.  Times are given in minutes and converted
to a duration (seconds here). -/
def decodeBottomSegments (asc desc : Int) :
    List JSONDiveSegment → Except MainError (List (DiveSegment × Gas))
  | [] => .ok []
  | s :: rest => do
    let seg ← (DiveSegment.new SegmentType.DiveSegment s.depth s.depth
        (60 * s.time) asc desc).mapError MainError.segment
    let gas ← (Gas.new s.o2 s.he (n2Passed s.o2 s.he)).mapError MainError.gas
    let tail ← decodeBottomSegments asc desc rest
    pure ((seg, gas) :: tail)

/-- Modelled from the spec: the per-compartment tissue state of the ZHL16
model — nitrogen and helium inert-gas partial pressures for each of the 16
compartments (spec §3 "Tissue State"). -/
structure TissueState where
  n2 : Fin 16 → ℚ
  he : Fin 16 → ℚ

/-- Surface ambient pressure, 1 atmosphere, in the pressure unit of the
tissue state. -/
def SURFACE_PRESSURE : ℚ := 1

/-- Modelled from the spec: `ZHL16::new` lives in the external `capra` crate.
Per the spec (§3) the tissue state is initialised to equilibrium with the
given gas at the surface before any segment is processed: every compartment
holds the gas's inert fractions of the surface ambient pressure.  (The real
constructor also receives the coefficient tables and the gradient factors;
those do not influence the initial pressures.) -/
def ZHL16.init (g : Gas) : TissueState where
  n2 := fun _ => (g.n2 : ℚ) / 100 * SURFACE_PRESSURE
  he := fun _ => (g.he : ℚ) / 100 * SURFACE_PRESSURE

/-- Embedded from src/main.rs lines 111–113: the gas literal `Gas::new(21, 0, 79)` from
which `main` initialises the ZHL16 model — a constant, never read from the
request. -/
def mainZhl16Gas : Gas := ⟨21, 0, 79⟩

/-- Embedded from src/main.rs lines 111–113: the tissue state `main` starts every plan
from.  It is a function of the request only in the trivial sense: the source
ignores the request here. -/
def mainTissueInit (_ : JSONDive) : TissueState := ZHL16.init mainZhl16Gas

/-- Modelled from the spec: the decompression-algorithm interface the planner
is generic over (`OpenCircuit<T: DecoAlgorithm>`): an opaque-to-the-planner
state type with an `expose` update (spec §4.2, Schreiner equation) and the
unrounded physiological `ceiling` query (spec §4.3).  The planner only ever
uses these two operations, so its structural invariants hold for every
instantiation, the ZHL16 one of `main` included. -/
structure DecoAlgorithm (σ : Type) where
  expose : σ → DiveSegment → Gas → σ
  ceiling : σ → ℚ

/-- Configuration the planning engine runs under (spec §4.4 and §6): rates,
stop-depth granularity, stop-time increment, the oxygen partial-pressure
ceiling used for computed MODs, and the deco-gas inventory. -/
structure PlanConfig where
  ascent_rate : Int
  descent_rate : Int
  stop_interval : Nat
  stop_inc : Nat
  ppo2_limit : ℚ
  deco_gases : List (Gas × Option Nat)

/-- Modelled from the spec: stop-depth granularity in metres (spec §4.4:
"a fixed stop interval"; the conventional value is 3 m). -/
def STOP_INTERVAL : Nat := 3

/-- Modelled from the spec: stop-lengthening time increment in minutes
(spec §4.4 step e: "fixed time increments, e.g. one minute"). -/
def STOP_INC : Nat := 1

/-- Modelled from the spec: the configured oxygen partial-pressure ceiling
for computed MODs (spec §4.1: "a configured ceiling (e.g. 1.4–1.6 ATA)"). -/
def MAX_PPO2 : ℚ := 14 / 10

/-- Modelled from the spec (§4.4 step a): round a physiological ceiling to the
stop-depth granularity used for ascent planning — the nearest stop-interval
multiple that is no shallower than the ceiling, floored at the surface. -/
def roundStop (interval : Nat) (c : ℚ) : Nat :=
  if c ≤ 0 then 0 else interval * (Int.toNat ⌈c / (interval : ℚ)⌉)

/-- Modelled from the spec: `capra::common::time_taken` — the duration
(seconds) of a depth change of `|d2 − d1|` metres at `rate` m/min. -/
def timeTaken (rate : Int) (d1 d2 : Nat) : Nat :=
  if rate.natAbs = 0 then 0 else 60 * (max d1 d2 - min d1 d2) / rate.natAbs

/-- Modelled from the spec (§4.4 steps 1 and d): the implicit transit segment
the planner synthesizes between two depths, at the ascent rate when going up
and the descent rate when going down. -/
def mkTransit (cfg : PlanConfig) (dFrom dTo : Nat) : DiveSegment where
  segment_type := SegmentType.AscDesc
  start_depth := dFrom
  end_depth := dTo
  time := timeTaken (if dTo < dFrom then cfg.ascent_rate else cfg.descent_rate) dFrom dTo
  ascent_rate := cfg.ascent_rate
  descent_rate := cfg.descent_rate

/-- Modelled from the spec (§4.4 step e): a constant-depth decompression-stop
segment of `minutes` minutes at `depth`. -/
def mkStop (cfg : PlanConfig) (depth minutes : Nat) : DiveSegment where
  segment_type := SegmentType.DecoStop
  start_depth := depth
  end_depth := depth
  time := 60 * minutes
  ascent_rate := cfg.ascent_rate
  descent_rate := cfg.descent_rate

/-- Modelled from the spec (§4.1, §4.4 step c): the maximum operating depth of
a deco-gas entry — the explicit override when present, otherwise the depth at
which the gas's oxygen partial pressure reaches the configured limit under
ambient pressure `1 + depth/33`.  A zero-oxygen gas has no defined MOD and
never qualifies (encoded as a negative depth). -/
def effectiveMod (cfg : PlanConfig) : Gas × Option Nat → ℚ
  | (_, some m) => (m : ℚ)
  | (g, none) =>
    if g.o2 = 0 then -1 else 33 * (cfg.ppo2_limit * 100 / (g.o2 : ℚ) - 1)

/-- Modelled from the spec (§4.4 step c): the gas breathed on an ascent leg to
`depth` — the richest (highest-oxygen) gas of the deco inventory whose MOD is
at least `depth`, falling back to the bottom gas when none qualifies. -/
def bestGas (cfg : PlanConfig) (fallback : Gas) (depth : Nat) : Gas :=
  let qual := cfg.deco_gases.filter fun p => (depth : ℚ) ≤ effectiveMod cfg p
  match qual.foldl (fun acc p =>
      match acc with
      | none => some p.1
      | some b => if b.o2 < p.1.o2 then some p.1 else some b) none with
  | none => fallback
  | some g => g

/-- Modelled from the spec (§4.4 step 1): run the bottom phase.  For each
requested bottom segment, synthesize the transit from the previous depth
(0 for the first), expose the tissue model to it and append it, then expose
the model to the bottom segment itself and append it.  Returns the final
tissue state, the final depth and the generated (segment, gas) list. -/
def runBottom {σ : Type} (cfg : PlanConfig) (alg : DecoAlgorithm σ) :
    σ → Nat → List (DiveSegment × Gas) → σ × Nat × List (DiveSegment × Gas)
  | st, d, [] => (st, d, [])
  | st, d, (seg, gas) :: rest =>
    let tr := mkTransit cfg d seg.start_depth
    let r := runBottom cfg alg (alg.expose (alg.expose st tr gas) seg gas)
      seg.end_depth rest
    (r.1, r.2.1, (tr, gas) :: (seg, gas) :: r.2.2)

/-- Modelled from the spec (§4.4 step e): lengthen a stop at `depth` in fixed
time increments, exposing the tissue model to each increment and re-querying
the ceiling, until the rounded ceiling is no deeper than the stop depth.
Bounded by `fuel`; exhausting it is the `UnreachableCeiling` guard. -/
def lengthenStop {σ : Type} (cfg : PlanConfig) (alg : DecoAlgorithm σ) :
    Nat → σ → Nat → Gas → Nat → Except PlanError (σ × Nat)
  | 0, _, _, _, _ => .error .UnreachableCeiling
  | fuel + 1, st, depth, gas, acc =>
    if roundStop cfg.stop_interval (alg.ceiling st) ≤ depth then .ok (st, acc)
    else lengthenStop cfg alg fuel
      (alg.expose st (mkStop cfg depth cfg.stop_inc) gas) depth gas
      (acc + cfg.stop_inc)

/-- Modelled from the spec (§4.4 step 2): the ascent loop.  Each iteration
queries and rounds the ceiling; at ceiling 0 it emits the final transit to
the surface and terminates, otherwise it selects the ascent gas, emits the
transit to the ceiling, lengthens a stop there (omitting zero-duration stops
— the policy choice of §9), and loops from the new depth.  Bounded by `fuel`;
exhausting it is the `UnreachableCeiling` guard. -/
def ascend {σ : Type} (cfg : PlanConfig) (alg : DecoAlgorithm σ) :
    Nat → σ → Nat → Gas → Except PlanError (List (DiveSegment × Gas))
  | 0, _, _, _ => .error .UnreachableCeiling
  | fuel + 1, st, depth, bottomGas =>
    let c := roundStop cfg.stop_interval (alg.ceiling st)
    if c = 0 then
      .ok [(mkTransit cfg depth 0, bestGas cfg bottomGas 0)]
    else
      let gas := bestGas cfg bottomGas c
      let tr := mkTransit cfg depth c
      match lengthenStop cfg alg (fuel + 1) (alg.expose st tr gas) c gas 0 with
      | .error e => .error e
      | .ok sres =>
        match ascend cfg alg fuel sres.1 c bottomGas with
        | .error e => .error e
        | .ok rest =>
          .ok ((tr, gas) ::
            (if sres.2 = 0 then rest else (mkStop cfg c sres.2, gas) :: rest))

/-- Modelled from the spec (§4.4): the bound on ascent-loop iterations behind
the `UnreachableCeiling` guard ("a large bounded iteration count"). -/
def PLAN_FUEL : Nat := 1000

/-- Modelled from the spec (§4.4): `execute_dive` of the open-circuit planner.
Fails with `NoBottomSegments` on an empty request, otherwise runs the bottom
phase from the surface and then the ascent loop, the deco-gas fallback being
the last bottom segment's gas.  The generated plan is the bottom-phase output
followed by the ascent output. -/
def executeDive {σ : Type} (cfg : PlanConfig) (alg : DecoAlgorithm σ) (init : σ) :
    List (DiveSegment × Gas) → Except PlanError (List (DiveSegment × Gas))
  | [] => .error .NoBottomSegments
  | seg :: rest =>
    let r := runBottom cfg alg init 0 (seg :: rest)
    match ascend cfg alg PLAN_FUEL r.1 r.2.1 ((List.getLastD rest seg).2) with
    | .error e => .error e
    | .ok out => .ok (r.2.2 ++ out)

/-- Embedded from src/main.rs lines 51–124: the modelled pipeline of `main` up to the
generated plan, generic over the deco algorithm (whose ZHL16 arithmetic lives
in the external crate): resolve the request's rates against their defaults,
decode the deco gases (lines 86–89), decode the bottom segments (lines
103–109), and run `execute_dive` under the planner configuration.  Every
stage is a pure function of the request. -/
def runRequestWith {σ : Type} (alg : DecoAlgorithm σ) (init : σ) (js : JSONDive) :
    Except MainError (List (DiveSegment × Gas)) := do
  let args := mainPlannerArgs js
  let deco ← (decodeDecoGases js.deco_gases).mapError MainError.gas
  let bottom ← decodeBottomSegments args.ascent_rate args.descent_rate js.segments
  let cfg : PlanConfig :=
    ⟨args.ascent_rate, args.descent_rate, STOP_INTERVAL, STOP_INC, MAX_PPO2, deco⟩
  (executeDive cfg alg init bottom).mapError MainError.plan

/-- Depth continuity of a plan from starting depth `d`: each segment starts at
the previous segment's end depth (the first at `d`). -/
def depthChain : Nat → List (DiveSegment × Gas) → Bool
  | _, [] => true
  | d, (s, _) :: rest => s.start_depth == d && depthChain s.end_depth rest

/-- The end depth of the last segment of a plan, `d` when the plan is empty. -/
def lastDepth : Nat → List (DiveSegment × Gas) → Nat
  | d, [] => d
  | _, (s, _) :: rest => lastDepth s.end_depth rest

/-- The start depth of the first segment of a plan, if any. -/
def headStart (l : List (DiveSegment × Gas)) : Option Nat :=
  l.head?.map fun p => p.1.start_depth

/-- Whether a pipeline result is a failure (no plan was computed). -/
def isError : Except MainError (List (DiveSegment × Gas)) → Bool
  | .error _ => true
  | .ok _ => false

/-- Embedded from src/main.rs lines 134–162: the `Runtime` column of the dive-plan table.
`main` keeps a running total `runtime += segment.time` while emitting rows;
`runtimes acc plan` is the list of runtime values printed for `plan` when the
running total starts at `acc` (`0` in the source, line 134). -/
def runtimes : Nat → List (DiveSegment × Gas) → List Nat
  | _, [] => []
  | acc, (s, _) :: rest => (acc + s.time) :: runtimes (acc + s.time) rest

/-- One Rust `usize` addition `a + b` under the release-profile wrapping
semantics: the sum reduced modulo `2^64`.  (A debug build panics at the same
point instead; in neither profile does the accumulator exceed `usize`.) -/
def wrappingAdd (a b : Nat) : Nat := (a + b) % USIZE

/-- Embedded from src/main.rs lines 167–177: the `total_gas` accumulator of
the gas-plan table, `total_gas += qty` over the entries of `gas_plan`
starting from `0`.  `total_gas` is a `usize`, so each addition is a machine
addition that wraps modulo `2^64`. -/
def totalGas : Nat → List (Gas × Nat) → Nat
  | acc, [] => acc
  | acc, (_, qty) :: rest => totalGas (wrappingAdd acc qty) rest

/-- A gas plan whose quantities sum to `2^64`, one step past the `usize`
accumulator. -/
def overflowGasPlan : List (Gas × Nat) :=
  [(⟨21, 0, 79⟩, 2 ^ 64 - 1), (⟨100, 0, 0⟩, 1)]

/-- A deco algorithm with trivial state whose ceiling is always at the
surface; used to instantiate the planner on concrete inputs. -/
def trivAlg : DecoAlgorithm Unit where
  expose := fun s _ _ => s
  ceiling := fun _ => 0

/-- A concrete planner configuration with the default rates, standard stop
granularity and an empty deco-gas inventory. -/
def demoConfig : PlanConfig :=
  ⟨-18, 30, STOP_INTERVAL, STOP_INC, MAX_PPO2, []⟩

/-- A concrete bottom phase: 25 minutes at 30 m on air. -/
def demoBottom : List (DiveSegment × Gas) :=
  [(⟨SegmentType.DiveSegment, 30, 30, 1500, -18, 30⟩, ⟨21, 0, 79⟩)]

/-- The plan the spec-modelled engine generates for `demoBottom` under
`demoConfig` and `trivAlg`: descent transit, bottom segment, ascent transit. -/
def demoPlan : List (DiveSegment × Gas) :=
  [(⟨SegmentType.AscDesc, 0, 30, 60, -18, 30⟩, ⟨21, 0, 79⟩),
   (⟨SegmentType.DiveSegment, 30, 30, 1500, -18, 30⟩, ⟨21, 0, 79⟩),
   (⟨SegmentType.AscDesc, 30, 0, 100, -18, 30⟩, ⟨21, 0, 79⟩)]

/-- A request whose only gas (a deco gas) has `o2 + he = 110 > 100`. -/
def badRequest : JSONDive :=
  ⟨none, none, none, none, [], [⟨80, 30, none⟩]⟩

/-- A request with everything omitted or empty. -/
def emptyRequest : JSONDive :=
  ⟨none, none, none, none, [], []⟩

/-! ## Arithmetic helpers -/

theorem wrappingSub_eq_sub {a b : Nat} (hb : b ≤ a) (ha : a < USIZE) :
    wrappingSub a b = a - b := by
  unfold wrappingSub
  rw [Nat.mod_eq_of_lt ha, Nat.mod_eq_of_lt (Nat.lt_of_le_of_lt hb ha)]
  have h1 : a + USIZE - b = USIZE + (a - b) := by omega
  rw [h1, Nat.add_mod_left, Nat.mod_eq_of_lt (by omega)]

/-! ## Claims about the planner arguments -/

/-- Claim C3: when the request omits the gradient-factor fields, `main` runs the
planner with gradient factor low 100 and high 100. -/
theorem gf_defaults_100 (js : JSONDive) (hl : js.gfl = none) (hh : js.gfh = none) :
    (mainPlannerArgs js).gfl = 100 ∧ (mainPlannerArgs js).gfh = 100 := by
  simp [mainPlannerArgs, hl, hh, DEFAULT_GFL, DEFAULT_GFH]

/-- Witness for `gf_defaults_100` at the concrete request with both fields
omitted. -/
theorem gf_defaults_100_witness :
    (mainPlannerArgs emptyRequest).gfl = 100 ∧
    (mainPlannerArgs emptyRequest).gfh = 100 :=
  gf_defaults_100 emptyRequest rfl rfl

/-- Claim C2 counterexample: the request cannot carry SAC rates at all, and the
SAC arguments `main` passes to the planner (src/main.rs line 117) are not 20
for both phases: the second one is 15. -/
theorem sac_not_default_20_each :
    ¬ ((mainPlannerArgs emptyRequest).sac_bottom = 20 ∧
       (mainPlannerArgs emptyRequest).sac_deco = 20) := by decide

/-- Claim C2 (amended): for every request, the planner is constructed with the
hard-coded SAC rates 20 (bottom phase) and 15 (deco phase); the request has
no SAC fields. -/
theorem sac_hardcoded_20_15 (js : JSONDive) :
    (mainPlannerArgs js).sac_bottom = 20 ∧ (mainPlannerArgs js).sac_deco = 15 :=
  ⟨rfl, rfl⟩

/-- Claim C10: for every request, the planner is instantiated with the ZHL16-B
coefficient tables and the saltwater density; no request field can select a
different variant or water type. -/
theorem zhl16b_saltwater_forced (js : JSONDive) :
    (mainPlannerArgs js).variant = ZHL16Variant.B ∧
    (mainPlannerArgs js).density = DENSITY_SALTWATER :=
  ⟨rfl, rfl⟩

/-- Claim C5: before any segment is processed the tissue model is initialised in
equilibrium with air (21/0/79) at the surface, whatever the request contains:
every compartment starts with nitrogen pressure 0.79 of an atmosphere and no
helium. -/
theorem tissue_init_air_equilibrium (js : JSONDive) (i : Fin 16) :
    Gas.new 21 0 79 = .ok mainZhl16Gas ∧
    (mainTissueInit js).n2 i = 79 / 100 ∧
    (mainTissueInit js).he i = 0 := by
  refine ⟨rfl, ?_, ?_⟩ <;>
    norm_num [mainTissueInit, ZHL16.init, mainZhl16Gas, SURFACE_PRESSURE]

/-! ## Claims about the derived nitrogen fraction -/

/-- Claim C4 counterexample: at `o2 = 101, he = 0` the `usize` expression
`100 - he - o2` of src/main.rs lines 87/107 does not equal the mathematical
`100 − o2 − he` (it wraps to `2^64 − 1`; a debug build would panic instead —
either way `−1` is never what reaches `Gas::new`). -/
theorem n2_not_derived_at_101_0 :
    ((n2Passed 101 0 : Nat) : Int) ≠ (100 : Int) - 101 - 0 := by decide

/-- Claim C4 (amended): for every request gas whose percentages satisfy
`o2 + he ≤ 100`, the nitrogen fraction passed to gas construction equals
`100 − o2 − he`; nitrogen is derived from `o2` and `he` and is never
independently supplied (the request types have no `n2` field). -/
theorem n2_derived_when_valid (o2 he : Nat) (h : o2 + he ≤ 100) :
    (n2Passed o2 he : Int) = 100 - o2 - he := by
  have hU : (100 : Nat) < USIZE := by norm_num [USIZE]
  have h1 : wrappingSub 100 he = 100 - he := wrappingSub_eq_sub (by omega) hU
  have h2 : wrappingSub (100 - he) o2 = 100 - he - o2 :=
    wrappingSub_eq_sub (by omega) (by omega)
  unfold n2Passed
  rw [h1, h2]
  omega

/-- Witness for `n2_derived_when_valid` at air (21/0): the nitrogen passed is
79. -/
theorem n2_derived_when_valid_witness : (n2Passed 21 0 : Int) = 79 := by
  have h := n2_derived_when_valid 21 0 (by norm_num)
  omega

/-! ## Claims about the output folds of `main` -/

theorem totalGas_eq_acc_add (gp : List (Gas × Nat)) :
    ∀ acc, acc < USIZE →
      totalGas acc gp = (acc + (gp.map fun p => p.2).sum) % USIZE := by
  induction gp with
  | nil =>
    intro acc hacc
    simp [totalGas, Nat.mod_eq_of_lt hacc]
  | cons x rest ih =>
    intro acc hacc
    obtain ⟨g, q⟩ := x
    have h2 := ih ((acc + q) % USIZE) (Nat.mod_lt _ (by norm_num [USIZE]))
    simp only [totalGas, wrappingAdd, List.map_cons, List.sum_cons, h2]
    rw [Nat.mod_add_mod, Nat.add_assoc]

/-- Claim C8 counterexample: at a gas plan whose quantities sum to `2^64`,
the reported grand total wraps (to 0) and differs from the mathematical sum
of the per-gas quantities. -/
theorem total_gas_wraps_at_usize :
    totalGas 0 overflowGasPlan ≠ (overflowGasPlan.map fun p => p.2).sum := by
  decide

/-- Claim C8 (amended): the grand total of gas reported by the program equals
the sum of the per-gas consumed quantities over all entries of the gas plan,
reduced modulo `2^64` (the `usize` wrap of the `total_gas` accumulator); in
particular it is the exact sum whenever that sum fits in `usize`. -/
theorem total_gas_is_sum_mod_usize (gp : List (Gas × Nat)) :
    totalGas 0 gp = (gp.map fun p => p.2).sum % USIZE := by
  simpa using totalGas_eq_acc_add gp 0 (by norm_num [USIZE])

theorem runtimes_get_eq (plan : List (DiveSegment × Gas)) :
    ∀ (acc i : Nat) (h : i < (runtimes acc plan).length),
      (runtimes acc plan).get ⟨i, h⟩ =
        acc + ((plan.take (i + 1)).map fun p => p.1.time).sum := by
  induction plan with
  | nil => intro acc i h; simp [runtimes] at h
  | cons x rest ih =>
    intro acc i h
    obtain ⟨s, g⟩ := x
    cases i with
    | zero => simp [runtimes]
    | succ n =>
      have h' : n < (runtimes (acc + s.time) rest).length := by
        simpa [runtimes] using h
      simp only [runtimes, List.get_cons_succ, ih (acc + s.time) n h',
        List.take_succ_cons, List.map_cons, List.sum_cons]
      omega

/-- Claim C7: in the printed dive-plan table, the runtime value on each row is
the prefix sum of the segment durations up to and including that row. -/
theorem runtime_is_prefix_sum (plan : List (DiveSegment × Gas)) (i : Nat)
    (h : i < (runtimes 0 plan).length) :
    (runtimes 0 plan).get ⟨i, h⟩ =
      ((plan.take (i + 1)).map fun p => p.1.time).sum := by
  simpa using runtimes_get_eq plan 0 i h

/-- Witness for `runtime_is_prefix_sum` at the second row of the concrete
demo plan. -/
theorem runtime_is_prefix_sum_witness :
    (runtimes 0 demoPlan).get ⟨1, by decide⟩ =
      ((demoPlan.take 2).map fun p => p.1.time).sum :=
  runtime_is_prefix_sum demoPlan 1 (by decide)

/-! ## Monad-reduction helpers for `Except` -/

theorem exceptBind_err {ε α β : Type} (e : ε) (f : α → Except ε β) :
    (Except.error e >>= f) = Except.error e := rfl

theorem exceptBind_ok {ε α β : Type} (a : α) (f : α → Except ε β) :
    (Except.ok a >>= f) = f a := rfl

theorem exceptMapError_err {ε ε' α : Type} (f : ε → ε') (e : ε) :
    (Except.error e : Except ε α).mapError f = Except.error (f e) := rfl

theorem exceptMapError_ok {ε ε' α : Type} (f : ε → ε') (a : α) :
    (Except.ok a : Except ε α).mapError f = Except.ok a := rfl

/-! ## Claim C1: invalid gas compositions abort the pipeline -/

theorem gasNew_err_of_gt (o2 he n2 : Nat) (h : 100 < o2 + he) :
    Gas.new o2 he n2 = .error .InvalidComposition := by
  unfold Gas.new
  rw [if_neg (by omega)]

theorem decodeDecoGases_err {l : List JSONDecoGas} {g : JSONDecoGas}
    (hg : g ∈ l) (hgt : 100 < g.o2 + g.he) :
    ∃ e, decodeDecoGases l = .error e := by
  induction l with
  | nil => cases hg
  | cons x rest ih =>
    rcases List.mem_cons.mp hg with rfl | hmem
    · exact ⟨.InvalidComposition, by
        simp [decodeDecoGases,
          gasNew_err_of_gt g.o2 g.he (n2Passed g.o2 g.he) hgt, exceptBind_err]⟩
    · cases hG : Gas.new x.o2 x.he (n2Passed x.o2 x.he) with
      | error e => exact ⟨e, by simp [decodeDecoGases, hG, exceptBind_err]⟩
      | ok gas =>
        obtain ⟨e, hre⟩ := ih hmem
        exact ⟨e, by
          simp [decodeDecoGases, hG, hre, exceptBind_ok, exceptBind_err]⟩

theorem decodeBottomSegments_err (asc desc : Int) {l : List JSONDiveSegment}
    {s : JSONDiveSegment} (hs : s ∈ l) (hgt : 100 < s.o2 + s.he) :
    ∃ e, decodeBottomSegments asc desc l = .error e := by
  induction l with
  | nil => cases hs
  | cons x rest ih =>
    rcases List.mem_cons.mp hs with rfl | hmem
    · cases hS : DiveSegment.new SegmentType.DiveSegment s.depth s.depth
          (60 * s.time) asc desc with
      | error e => exact ⟨.segment e, by
          simp [decodeBottomSegments, hS, exceptMapError_err, exceptBind_err]⟩
      | ok seg =>
        exact ⟨.gas .InvalidComposition, by
          simp [decodeBottomSegments, hS,
            gasNew_err_of_gt s.o2 s.he (n2Passed s.o2 s.he) hgt,
            exceptMapError_err, exceptMapError_ok, exceptBind_err, exceptBind_ok]⟩
    · cases hS : DiveSegment.new SegmentType.DiveSegment x.depth x.depth
          (60 * x.time) asc desc with
      | error e => exact ⟨.segment e, by
          simp [decodeBottomSegments, hS, exceptMapError_err, exceptBind_err]⟩
      | ok seg =>
        cases hG : Gas.new x.o2 x.he (n2Passed x.o2 x.he) with
        | error e => exact ⟨.gas e, by
            simp [decodeBottomSegments, hS, hG, exceptMapError_err,
              exceptMapError_ok, exceptBind_err, exceptBind_ok]⟩
        | ok gas =>
          obtain ⟨e, hre⟩ := ih hmem
          exact ⟨e, by
            simp [decodeBottomSegments, hS, hG, hre, exceptMapError_err,
              exceptMapError_ok, exceptBind_err, exceptBind_ok]⟩

/-- Claim C1: a request gas (deco or bottom) with `o2 + he > 100` fails gas
construction with `InvalidComposition`, and the pipeline aborts before any
plan is computed — whatever deco algorithm would have been run. -/
theorem invalid_gas_rejected {σ : Type} (alg : DecoAlgorithm σ) (init : σ)
    (js : JSONDive) (o2 he : Nat)
    (hmem : (∃ g ∈ js.deco_gases, g.o2 = o2 ∧ g.he = he) ∨
            (∃ s ∈ js.segments, s.o2 = o2 ∧ s.he = he))
    (hgt : 100 < o2 + he) :
    Gas.new o2 he (n2Passed o2 he) = .error .InvalidComposition ∧
    isError (runRequestWith alg init js) = true := by
  refine ⟨gasNew_err_of_gt _ _ _ hgt, ?_⟩
  unfold runRequestWith
  rcases hmem with ⟨g, hgmem, ho, hh⟩ | ⟨s, hsmem, ho, hh⟩
  · obtain ⟨e, hde⟩ := decodeDecoGases_err hgmem (by omega)
    simp [hde, exceptMapError_err, exceptBind_err, isError]
  · cases hdg : decodeDecoGases js.deco_gases with
    | error e => simp [hdg, exceptMapError_err, exceptBind_err, isError]
    | ok deco =>
      obtain ⟨e, hbe⟩ := decodeBottomSegments_err (mainPlannerArgs js).ascent_rate
        (mainPlannerArgs js).descent_rate hsmem (by omega)
      simp [hdg, hbe, exceptMapError_ok, exceptBind_ok, exceptBind_err, isError]

/-- Witness for `invalid_gas_rejected`: the concrete request whose only deco
gas is 80/30. -/
theorem invalid_gas_rejected_witness :
    Gas.new 80 30 (n2Passed 80 30) = .error .InvalidComposition ∧
    isError (runRequestWith trivAlg () badRequest) = true :=
  invalid_gas_rejected trivAlg () badRequest 80 30
    (Or.inl ⟨⟨80, 30, none⟩, by simp [badRequest], rfl, rfl⟩) (by norm_num)

/-! ## Claim C6: the generated plan is depth-continuous, surface to surface -/

theorem depthChain_append (xs ys : List (DiveSegment × Gas)) :
    ∀ d, depthChain d (xs ++ ys) =
      (depthChain d xs && depthChain (lastDepth d xs) ys) := by
  induction xs with
  | nil => intro d; simp [depthChain, lastDepth]
  | cons x rest ih =>
    intro d
    obtain ⟨s, g⟩ := x
    simp [depthChain, lastDepth, ih, Bool.and_assoc]

theorem lastDepth_append (xs ys : List (DiveSegment × Gas)) :
    ∀ d, lastDepth d (xs ++ ys) = lastDepth (lastDepth d xs) ys := by
  induction xs with
  | nil => intro d; simp [lastDepth]
  | cons x rest ih =>
    intro d
    obtain ⟨s, g⟩ := x
    simp [lastDepth, ih]

theorem headStart_eq_of_chain {l : List (DiveSegment × Gas)} {d : Nat}
    (hne : l ≠ []) (hch : depthChain d l = true) : headStart l = some d := by
  cases l with
  | nil => exact absurd rfl hne
  | cons x rest =>
    obtain ⟨s, g⟩ := x
    simp only [depthChain, Bool.and_eq_true, beq_iff_eq] at hch
    simp [headStart, hch.1]

theorem runBottom_chain {σ : Type} (cfg : PlanConfig) (alg : DecoAlgorithm σ)
    (segs : List (DiveSegment × Gas)) :
    ∀ (st : σ) (d : Nat),
      depthChain d (runBottom cfg alg st d segs).2.2 = true ∧
      lastDepth d (runBottom cfg alg st d segs).2.2 =
        (runBottom cfg alg st d segs).2.1 := by
  induction segs with
  | nil => intro st d; simp [runBottom, depthChain, lastDepth]
  | cons x rest ih =>
    intro st d
    obtain ⟨seg, gas⟩ := x
    have h := ih (alg.expose (alg.expose st (mkTransit cfg d seg.start_depth) gas)
      seg gas) seg.end_depth
    simp only [mkTransit] at h
    simp [runBottom, depthChain, lastDepth, mkTransit, h.1, h.2]

theorem ascend_chain {σ : Type} (cfg : PlanConfig) (alg : DecoAlgorithm σ) :
    ∀ (fuel : Nat) (st : σ) (depth : Nat) (g : Gas)
      (out : List (DiveSegment × Gas)),
      ascend cfg alg fuel st depth g = .ok out →
      out ≠ [] ∧ depthChain depth out = true ∧ lastDepth depth out = 0 := by
  intro fuel
  induction fuel with
  | zero => intro st depth g out h; simp [ascend] at h
  | succ n ih =>
    intro st depth g out h
    by_cases hc : roundStop cfg.stop_interval (alg.ceiling st) = 0
    · simp only [ascend] at h
      rw [if_pos hc] at h
      simp only [Except.ok.injEq] at h
      subst h
      refine ⟨by simp, ?_, ?_⟩
      · simp [depthChain, mkTransit]
      · simp [lastDepth, mkTransit]
    · simp only [ascend] at h
      rw [if_neg hc] at h
      split at h
      · simp at h
      · rename_i sres heq
        split at h
        · simp at h
        · rename_i rest heq2
          simp only [Except.ok.injEq] at h
          subst h
          obtain ⟨hne, hch, hld⟩ := ih _ _ _ _ heq2
          refine ⟨by simp, ?_, ?_⟩
          · by_cases hz : sres.2 = 0
            · simp [hz, depthChain, mkTransit, hch]
            · simp [hz, depthChain, mkTransit, mkStop, hch]
          · by_cases hz : sres.2 = 0
            · simp [hz, lastDepth, mkTransit, hld]
            · simp [hz, lastDepth, mkTransit, mkStop, hld]

/-- Claim C6: whenever the planner succeeds, the generated segment sequence is
nonempty, starts at depth 0, ends at depth 0, and is depth-continuous: each
segment's start depth equals the previous segment's end depth. -/
theorem plan_surface_invariants {σ : Type} (cfg : PlanConfig)
    (alg : DecoAlgorithm σ) (init : σ) (bottom plan : List (DiveSegment × Gas))
    (h : executeDive cfg alg init bottom = .ok plan) :
    plan ≠ [] ∧ headStart plan = some 0 ∧ depthChain 0 plan = true ∧
    lastDepth 0 plan = 0 := by
  cases bottom with
  | nil => simp [executeDive] at h
  | cons seg rest =>
    simp only [executeDive] at h
    split at h
    · simp at h
    · rename_i out heq
      simp only [Except.ok.injEq] at h
      subst h
      obtain ⟨hb1, hb2⟩ := runBottom_chain cfg alg (seg :: rest) init 0
      obtain ⟨hne, hch, hld⟩ := ascend_chain cfg alg PLAN_FUEL _ _ _ out heq
      have hchain :
          depthChain 0 ((runBottom cfg alg init 0 (seg :: rest)).2.2 ++ out) = true := by
        rw [depthChain_append, hb2, hb1, hch]
        rfl
      have hanil : (runBottom cfg alg init 0 (seg :: rest)).2.2 ++ out ≠ [] := by
        intro hx
        exact hne (List.append_eq_nil.mp hx).2
      refine ⟨hanil, headStart_eq_of_chain hanil hchain, hchain, ?_⟩
      rw [lastDepth_append, hb2, hld]

/-- Witness for `plan_surface_invariants` on the concrete demo dive. -/
theorem plan_surface_invariants_witness :
    demoPlan ≠ [] ∧ headStart demoPlan = some 0 ∧
    depthChain 0 demoPlan = true ∧ lastDepth 0 demoPlan = 0 :=
  plan_surface_invariants demoConfig trivAlg () demoBottom demoPlan (by rfl)

end CapraSP
